import Mathlib

/-!
# Verification of the `ModalView` overlay lifecycle (kivy/uix/modalview.py)

A shallow embedding of the `ModalView` widget's state machine: the
open/dismiss lifecycle, its interaction with the shared window (the
"display root"), input capture, and the fade animation handles.

The embedding models the controller's fields (`_anim`, `_anim_alpha`,
`_is_open`, `_window`, `_touch_started_inside`, `center`, `auto_dismiss`)
and the window's observable state (widget collection, center, resize and
keyboard bind counts).  Every operation additionally produces a trace of
observable actions (event dispatches, widget insertion/removal,
subscriptions, animation starts/stops), so that ordering guarantees can
be stated.

Event-dispatch results are inputs: `dispatch('on_dismiss')` returns the
aggregate truthy-ness of the registered listeners' return values, which
the embedding takes as a `veto : Bool` parameter.  Point containment
(`collide_point`) is likewise taken as a boolean input of the press
handler.
-/

namespace ModalView

/-- What the completion callback bound to an animation does:
the fade-in animation dispatches `on_open`; the fade-out animation runs
`_real_remove_widget`.  (These are the two `on_complete` lambdas bound in
`open` and `dismiss`.) -/
inductive AnimDone
  | dispatchOpen
  | realRemove
deriving DecidableEq, Repr

/-- An animation handle (`Animation(_anim_alpha=target, d=duration)`),
identified by a unique id so distinct handles can be told apart. -/
structure Anim where
  id : Nat
  targetAlpha : Rat
  done : AnimDone
deriving DecidableEq, Repr

/-- The controller's own fields, as in the source class. -/
structure ViewState where
  /-- `auto_dismiss` property, defaults to `True`. -/
  auto_dismiss : Bool := true
  /-- `_anim`: the owned animation handle, defaults to `None`. -/
  anim : Option Anim := none
  /-- `_anim_alpha`: the fade alpha, defaults to `0`. -/
  anim_alpha : Rat := 0
  /-- `_anim_duration`: fade duration, defaults to `.1`. -/
  anim_duration : Rat := Rat.mk' 1 10
  /-- Whether `_window` is set (a reference to the shared Window). -/
  window : Bool := false
  /-- `_is_open`, defaults to `False`. -/
  is_open : Bool := false
  /-- `_touch_started_inside`: tri-state, defaults to `None`. -/
  touch_started_inside : Option Bool := none
  /-- The controller's `center` point. -/
  center : Int × Int := (0, 0)
deriving DecidableEq, Repr

/-- The observable state of the shared Window (display root). -/
structure WindowState where
  /-- The window's widget collection, as a list of widget ids. -/
  children : List Nat := []
  /-- The window's current center. -/
  center : Int × Int := (0, 0)
  /-- Number of live `on_resize` subscriptions of the controller. -/
  resize_binds : Nat := 0
  /-- Number of live `on_keyboard` subscriptions of the controller. -/
  keyboard_binds : Nat := 0
deriving DecidableEq, Repr

/-- The whole system: controller, window, and a counter for fresh
animation-handle ids. -/
structure Sys where
  view : ViewState := {}
  win : WindowState := {}
  next_anim_id : Nat := 0
deriving DecidableEq, Repr

/-- The widget id under which the controller appears in the window's
collection. -/
def ctrlId : Nat := 0

/-- Observable actions, recorded in traces in the order the source
performs them. -/
inductive Act
  | preOpen      -- dispatch('on_pre_open')
  | openEvt      -- dispatch('on_open')
  | preDismiss   -- dispatch('on_pre_dismiss')
  | dismissEvt   -- dispatch('on_dismiss')
  | addWidget    -- Window.add_widget(self)
  | removeWidget -- Window.remove_widget(self)
  | bindResize | bindKeyboard | unbindResize | unbindKeyboard
  | setCenter    -- self.center = Window.center
  | bindCenter | bindSize   -- fbind('center'/'size', _align_center)
  | animStart    -- ani.start(self)
  | animStop     -- self._anim.stop(self)
  | setAlpha     -- _anim_alpha set to the animation target
  | forwardDown | forwardMove | forwardUp  -- super() touch dispatch
deriving DecidableEq, Repr

/-- `ModalView._clear_anim`: stop and clear the animation if there is
one. -/
def clear_anim (s : Sys) : Sys × List Act :=
  match s.view.anim with
  | some _ => ({ s with view := { s.view with anim := none } }, [Act.animStop])
  | none => (s, [])

/-- `ModalView._real_remove_widget`: if open, remove the controller from
the window's collection, unbind the resize/keyboard subscriptions, set
`_is_open = False` and clear `_window`. -/
def real_remove_widget (s : Sys) : Sys × List Act :=
  if s.view.is_open then
    ({ s with
        view := { s.view with is_open := false, window := false },
        win := { s.win with
          children := s.win.children.erase ctrlId,
          resize_binds := s.win.resize_binds - 1,
          keyboard_binds := s.win.keyboard_binds - 1 } },
     [Act.removeWidget, Act.unbindResize, Act.unbindKeyboard])
  else (s, [])

/-- `ModalView.open(animation=...)`: no-op if `_is_open`; otherwise clear
any stray animation, take the window reference, set `_is_open`, dispatch
`on_pre_open`, insert into the window, bind resize/keyboard, center on
the window, bind own center/size, then either start the fade-in
animation (whose completion dispatches `on_open`) or set the alpha to 1
and dispatch `on_open` immediately.  (`open` is a Lean keyword, hence
`openView`.) -/
def openView (animation : Bool) (s0 : Sys) : Sys × List Act :=
  if s0.view.is_open then (s0, [])
  else
    let p := clear_anim s0
    let s1 := { p.1 with view := { p.1.view with window := true, is_open := true } }
    let s2 := { s1 with win := { s1.win with
      children := ctrlId :: s1.win.children,
      resize_binds := s1.win.resize_binds + 1,
      keyboard_binds := s1.win.keyboard_binds + 1 } }
    let s3 := { s2 with view := { s2.view with center := s2.win.center } }
    let tr := p.2 ++ [Act.preOpen, Act.addWidget, Act.bindResize, Act.bindKeyboard,
        Act.setCenter, Act.bindCenter, Act.bindSize]
    if animation then
      ({ s3 with
          view := { s3.view with anim := some ⟨s3.next_anim_id, 1, AnimDone.dispatchOpen⟩ },
          next_anim_id := s3.next_anim_id + 1 },
       tr ++ [Act.animStart])
    else
      ({ s3 with view := { s3.view with anim_alpha := 1 } },
       tr ++ [Act.setAlpha, Act.openEvt])

/-- `ModalView.dismiss(force=..., animation=...)`: clear any animation
first, then no-op if not open; otherwise dispatch `on_pre_dismiss` and
`on_dismiss`; if the `on_dismiss` dispatch returned truthy (`veto`) and
`force` is false, abort; otherwise start the fade-out animation (whose
completion runs `_real_remove_widget`) or remove immediately.  `veto`
models the return value of `self.dispatch('on_dismiss')`. -/
def dismiss (veto force animation : Bool) (s0 : Sys) : Sys × List Act :=
  let p := clear_anim s0
  if p.1.view.is_open then
    let tr := p.2 ++ [Act.preDismiss, Act.dismissEvt]
    if veto && !force then (p.1, tr)
    else if animation then
      ({ p.1 with
          view := { p.1.view with anim := some ⟨p.1.next_anim_id, 0, AnimDone.realRemove⟩ },
          next_anim_id := p.1.next_anim_id + 1 },
       tr ++ [Act.animStart])
    else
      ((real_remove_widget p.1).1, tr ++ (real_remove_widget p.1).2)
  else (p.1, p.2)

/-- `ModalView._align_center`: if open, set the controller's center to
the window's center. -/
def align_center (s : Sys) : Sys :=
  if s.view.is_open then { s with view := { s.view with center := s.win.center } }
  else s

/-- Completion of the active animation.  Modelled from the spec: the
AnimationService is an opaque service that "advances a scalar value over
a duration and signals completion" (the `kivy.animation` module is not
part of this source file).  On completion the alpha reaches the target
and the source-bound `on_complete` callback runs: `dispatch('on_open')`
for the fade-in, `_real_remove_widget()` for the fade-out.  Completion
does not clear the `_anim` field (the source only clears it in
`_clear_anim`). -/
def complete_anim (s : Sys) : Sys × List Act :=
  match s.view.anim with
  | none => (s, [])
  | some a =>
    let s1 := { s with view := { s.view with anim_alpha := a.targetAlpha } }
    match a.done with
    | AnimDone.dispatchOpen => (s1, [Act.setAlpha, Act.openEvt])
    | AnimDone.realRemove =>
      ((real_remove_widget s1).1, Act.setAlpha :: (real_remove_widget s1).2)

/-- Python truthiness of the tri-state `_touch_started_inside`. -/
def truthy : Option Bool → Bool
  | some b => b
  | none => false

/-- `ModalView.on_touch_down`: record whether the press collided with the
view (`collides` models `self.collide_point(*touch.pos)`), forward to
`super()` when `auto_dismiss` is false or the press started inside, and
consume the event. -/
def on_touch_down (collides : Bool) (s : Sys) : Sys × List Act × Bool :=
  let s1 := { s with view := { s.view with touch_started_inside := some collides } }
  if !s1.view.auto_dismiss || truthy s1.view.touch_started_inside then
    (s1, [Act.forwardDown], true)
  else (s1, [], true)

/-- `ModalView.on_touch_move`: forward to `super()` when `auto_dismiss`
is false or the gesture started inside; always consume. -/
def on_touch_move (s : Sys) : Sys × List Act × Bool :=
  if !s.view.auto_dismiss || truthy s.view.touch_started_inside then
    (s, [Act.forwardMove], true)
  else (s, [], true)

/-- `ModalView.on_touch_up`: if `auto_dismiss` and the gesture explicitly
started outside (`_touch_started_inside is False`, not `None`), call
`dismiss()` (default arguments); otherwise forward to `super()`.  Then
reset `_touch_started_inside` to `None` and consume. -/
def on_touch_up (veto : Bool) (s : Sys) : Sys × List Act × Bool :=
  let p :=
    if s.view.auto_dismiss && s.view.touch_started_inside == some false then
      dismiss veto false true s
    else (s, [Act.forwardUp])
  ({ p.1 with view := { p.1.view with touch_started_inside := none } }, p.2, true)

/-- `ModalView._handle_keyboard`: on the escape key code (27) with
`auto_dismiss` set, call `dismiss()` and return `True` (consumed);
otherwise fall through (Python returns `None`). -/
def handle_keyboard (veto : Bool) (key : Nat) (s : Sys) : Sys × List Act × Option Bool :=
  if key == 27 && s.view.auto_dismiss then
    ((dismiss veto false true s).1, (dismiss veto false true s).2, some true)
  else (s, [], none)

/-- A window resize notification: the window's center changes and the
bound `_align_center` callback runs (it is bound once per open; when the
controller is not subscribed nothing of the controller runs). -/
def on_resize (c : Int × Int) (s : Sys) : Sys :=
  let s1 := { s with win := { s.win with center := c } }
  if s1.win.resize_binds > 0 then align_center s1 else s1

/-- `a` fires strictly before `b` in a trace: an occurrence of `a`
precedes the first occurrence of `b`, and `b` does occur. -/
def precedes (a b : Act) : List Act → Bool
  | [] => false
  | x :: tr => if x = b then false else if x = a then tr.contains b else precedes a b tr

/-! ## Concrete reachable states used by witnesses and counterexamples -/

/-- A freshly constructed controller (all defaults). -/
def initSys : Sys := {}

/-- After `open(animation=False)` from the initial state: open, attached,
subscribed, no animation handle. -/
def openSt : Sys := (openView false initSys).1

/-- After `open(animation=True)` from the initial state: open with the
fade-in animation in flight. -/
def openAnimSt : Sys := (openView true initSys).1

/-- After `open(animation=False)` then `dismiss()` (animated, no veto):
the dismiss fade-out is in flight and `_is_open` is still `True`. -/
def fadingSt : Sys := (dismiss false false true openSt).1

/-- After the dismiss fade-out of `fadingSt` completes: the view is
closed but `_anim` still holds the completed fade-out handle (the source
only clears `_anim` in `_clear_anim`). -/
def closedStale : Sys := (complete_anim fadingSt).1

/-! ## Claims -/

/-- C1: for every `dismiss()` call made while `_is_open` is true: if the
`on_dismiss` dispatch returns truthy (`veto = true`) and `force` is
false, the dismiss aborts (the state is exactly the post-`_clear_anim`
state) with the controller still in the window's collection and
`_is_open` still true; with `force = true` dismissal proceeds exactly as
if no listener had vetoed; and the `on_dismiss` event is dispatched in
every such call, whatever `veto` and `force` are. -/
theorem C1_dismiss_veto_force (s : Sys) (animation veto force : Bool)
    (hopen : s.view.is_open = true) (hmem : ctrlId ∈ s.win.children) :
    ((dismiss true false animation s).1 = (clear_anim s).1 ∧
     (dismiss true false animation s).1.view.is_open = true ∧
     ctrlId ∈ (dismiss true false animation s).1.win.children) ∧
    dismiss veto true animation s = dismiss false false animation s ∧
    Act.dismissEvt ∈ (dismiss veto force animation s).2 := by
  cases hanim : s.view.anim with
  | none =>
    cases veto <;> cases force <;> cases animation <;>
      simp [dismiss, clear_anim, hanim, hopen, hmem]
  | some a =>
    cases veto <;> cases force <;> cases animation <;>
      simp [dismiss, clear_anim, hanim, hopen, hmem]

/-- Witness for C1 at the concrete open state `openSt`. -/
theorem C1_dismiss_veto_force_witness :
    ((dismiss true false false openSt).1 = (clear_anim openSt).1 ∧
     (dismiss true false false openSt).1.view.is_open = true ∧
     ctrlId ∈ (dismiss true false false openSt).1.win.children) ∧
    dismiss true true false openSt = dismiss false false false openSt ∧
    Act.dismissEvt ∈ (dismiss true true false openSt).2 :=
  C1_dismiss_veto_force openSt false true true (by decide) (by decide)

/-- C4: `open()` called while `_is_open` is already true returns
immediately: the state is unchanged and nothing observable happens
(empty trace: no insertion, no event dispatch, no field change). -/
theorem C4_open_noop_while_open (s : Sys) (animation : Bool)
    (hopen : s.view.is_open = true) :
    openView animation s = (s, []) := by
  simp [openView, hopen]

/-- Witness for C4 at the concrete open state `openSt`. -/
theorem C4_open_noop_while_open_witness : openView true openSt = (openSt, []) :=
  C4_open_noop_while_open openSt true (by decide)

/-- C3 counterexample: `closedStale` is a reachable state (a full
animated open/dismiss cycle) with `_is_open = False` in which `_anim`
still holds the completed fade-out handle; calling `dismiss()` there is
not effect-free: `_clear_anim` runs before the `_is_open` guard, so the
`_anim` field changes from `some` to `none` and the handle is stopped. -/
theorem C3_counterexample :
    closedStale.view.is_open = false ∧
    closedStale.view.anim.isSome = true ∧
    (dismiss false false true closedStale).1 ≠ closedStale ∧
    (dismiss false false true closedStale).1.view.anim = none ∧
    (dismiss false false true closedStale).2 = [Act.animStop] := by
  decide

/-- C3 amended: `dismiss()` called while `_is_open` is false dispatches
no event and changes no field of the controller other than `_anim`,
which is stopped and cleared when present (the resulting state is
exactly the input with `_anim := none`, and the trace is `[animStop]`
when a handle was present, empty otherwise — in particular a complete
no-op when `_anim` is already `None`). -/
theorem C3_closed_dismiss (s : Sys) (veto force animation : Bool)
    (hclosed : s.view.is_open = false) :
    (dismiss veto force animation s).1
      = { s with view := { s.view with anim := none } } ∧
    (dismiss veto force animation s).2
      = (if s.view.anim.isSome then [Act.animStop] else []) := by
  obtain ⟨⟨ad, an, aa, adur, wd, io, tsi, tc⟩, w, n⟩ := s
  dsimp only at hclosed
  subst hclosed
  cases an with
  | none => simp [dismiss, clear_anim]
  | some a => simp [dismiss, clear_anim]

/-- Witness for the amended C3 at the concrete state `closedStale`. -/
theorem C3_closed_dismiss_witness :
    (dismiss false true false closedStale).1
      = { closedStale with view := { closedStale.view with anim := none } } ∧
    (dismiss false true false closedStale).2
      = (if closedStale.view.anim.isSome then [Act.animStop] else []) :=
  C3_closed_dismiss closedStale false true false (by decide)

/-- C10: every `dismiss()` call made while `_is_open` is true and an
animation handle is active stops the handle before dispatching
`on_pre_dismiss` (`animStop` precedes `preDismiss` in the trace); and
after a vetoed dismiss (`on_dismiss` returned truthy, `force` false) the
state is exactly the input with `_anim := none` — the handle is gone and
the stray fade-in has been stopped — while `_is_open` is still true. -/
theorem C10_dismiss_clears_anim_first (s : Sys) (a : Anim)
    (veto force animation : Bool)
    (hopen : s.view.is_open = true) (hanim : s.view.anim = some a) :
    precedes Act.animStop Act.preDismiss (dismiss veto force animation s).2 = true ∧
    (dismiss true false animation s).1
      = { s with view := { s.view with anim := none } } ∧
    (dismiss true false animation s).1.view.is_open = true ∧
    (dismiss true false animation s).1.view.anim = none := by
  cases veto <;> cases force <;> cases animation <;>
    simp [dismiss, clear_anim, hanim, hopen, precedes]

/-- Witness for C10 at the concrete state `openAnimSt` (open, fade-in
animation in flight). -/
theorem C10_dismiss_clears_anim_first_witness :
    precedes Act.animStop Act.preDismiss (dismiss true false true openAnimSt).2 = true ∧
    (dismiss true false true openAnimSt).1
      = { openAnimSt with view := { openAnimSt.view with anim := none } } ∧
    (dismiss true false true openAnimSt).1.view.is_open = true ∧
    (dismiss true false true openAnimSt).1.view.anim = none :=
  C10_dismiss_clears_anim_first openAnimSt ⟨0, 1, AnimDone.dispatchOpen⟩
    true false true (by decide) (by decide)

/-- C2 counterexample: `fadingSt` is a reachable state (open with
`animation=False`, then an un-vetoed animated `dismiss()`) in which the
dismiss fade-out animation is in flight and `_is_open` is still true.
Calling `open()` there returns immediately without touching the old
animation handle — it is *not* discarded — and the fade-out's completion
callback still runs the removal logic afterwards. -/
theorem C2_counterexample :
    fadingSt.view.is_open = true ∧
    fadingSt.view.anim = some ⟨0, 0, AnimDone.realRemove⟩ ∧
    openView true fadingSt = (fadingSt, []) ∧
    (openView true fadingSt).1.view.anim = some ⟨0, 0, AnimDone.realRemove⟩ ∧
    Act.removeWidget ∈ (complete_anim (openView true fadingSt).1).2 ∧
    (complete_anim (openView true fadingSt).1).1.view.is_open = false := by
  decide

/-- C2 amended: `open()` called while a dismiss fade-out is in flight is
a no-op (`_is_open` is still true until the fade-out completes), so the
dismiss animation stays in place and its completion performs the
removal.  What does hold in general is exclusivity at start: a call of
`open()` or `dismiss()` stops the previously stored handle before
starting a new animation — `animStop` precedes `animStart` in the trace
exactly when the call starts an animation while an old handle exists. -/
theorem C2_anim_exclusivity (s t : Sys) (b veto force animation : Bool)
    (hopen : s.view.is_open = true) :
    openView b s = (s, []) ∧
    precedes Act.animStop Act.animStart (openView b t).2
      = (t.view.anim.isSome && !t.view.is_open && b) ∧
    precedes Act.animStop Act.animStart (dismiss veto force animation t).2
      = (t.view.anim.isSome && t.view.is_open && !(veto && !force) && animation) := by
  refine ⟨by simp [openView, hopen], ?_, ?_⟩
  · cases hanim : t.view.anim with
    | none =>
      cases htio : t.view.is_open <;> cases b <;>
        simp [openView, clear_anim, hanim, htio, precedes]
    | some a =>
      cases htio : t.view.is_open <;> cases b <;>
        simp [openView, clear_anim, hanim, htio, precedes]
  · cases hanim : t.view.anim with
    | none =>
      cases htio : t.view.is_open <;> cases veto <;> cases force <;>
        cases animation <;>
          simp [dismiss, clear_anim, real_remove_widget, hanim, htio, precedes]
    | some a =>
      cases htio : t.view.is_open <;> cases veto <;> cases force <;>
        cases animation <;>
          simp [dismiss, clear_anim, real_remove_widget, hanim, htio, precedes]

/-- Witness for the amended C2, with both states instantiated at the
concrete in-flight state `fadingSt`. -/
theorem C2_anim_exclusivity_witness :
    openView true fadingSt = (fadingSt, []) ∧
    precedes Act.animStop Act.animStart (openView true fadingSt).2
      = (fadingSt.view.anim.isSome && !fadingSt.view.is_open && true) ∧
    precedes Act.animStop Act.animStart (dismiss false true true fadingSt).2
      = (fadingSt.view.anim.isSome && fadingSt.view.is_open
          && !(false && !true) && true) :=
  C2_anim_exclusivity fadingSt fadingSt true false true true (by decide)

/-- C5: ordering guarantees.  In every successful `open()`,
`on_pre_open` fires before the insertion into the window; with animation
the `on_open` dispatch is absent from `open()`'s own trace and happens at
fade-in completion (right after the alpha reaches its target); without
animation the trace ends with the alpha set to 1 followed immediately by
`on_open`.  In every `dismiss()` from the open state, `on_pre_dismiss`
fires before the `on_dismiss` dispatch (the veto check); when the
dismiss proceeds (shown both for `force = true` with arbitrary veto and
for an un-vetoed dismiss with arbitrary force), `on_dismiss` fires
before the fade-out starts, no removal happens in `dismiss()`'s own
trace, and the removal (with its unbinds) happens at fade-out
completion; with animation suppressed the removal follows `on_dismiss`
within the call. -/
theorem C5_event_ordering (s t : Sys) (veto force : Bool)
    (hs : s.view.is_open = false) (ht : t.view.is_open = true) :
    (precedes Act.preOpen Act.addWidget (openView true s).2 = true ∧
     Act.openEvt ∉ (openView true s).2 ∧
     (complete_anim (openView true s).1).2 = [Act.setAlpha, Act.openEvt]) ∧
    (precedes Act.preOpen Act.addWidget (openView false s).2 = true ∧
     (openView false s).2
       = (if s.view.anim.isSome then [Act.animStop] else [])
         ++ [Act.preOpen, Act.addWidget, Act.bindResize, Act.bindKeyboard,
             Act.setCenter, Act.bindCenter, Act.bindSize,
             Act.setAlpha, Act.openEvt]) ∧
    (precedes Act.preDismiss Act.dismissEvt (dismiss veto force true t).2 = true ∧
     precedes Act.preDismiss Act.dismissEvt (dismiss veto force false t).2 = true) ∧
    (precedes Act.dismissEvt Act.animStart (dismiss veto true true t).2 = true ∧
     Act.removeWidget ∉ (dismiss veto true true t).2 ∧
     (complete_anim (dismiss veto true true t).1).2
       = [Act.setAlpha, Act.removeWidget, Act.unbindResize, Act.unbindKeyboard] ∧
     precedes Act.dismissEvt Act.removeWidget (dismiss veto true false t).2 = true) ∧
    (precedes Act.dismissEvt Act.animStart (dismiss false force true t).2 = true ∧
     precedes Act.dismissEvt Act.removeWidget (dismiss false force false t).2 = true) := by
  have hopen : ∀ b : Bool,
      (openView b s).2
        = (if s.view.anim.isSome then [Act.animStop] else [])
          ++ [Act.preOpen, Act.addWidget, Act.bindResize, Act.bindKeyboard,
              Act.setCenter, Act.bindCenter, Act.bindSize]
          ++ (if b then [Act.animStart] else [Act.setAlpha, Act.openEvt]) := by
    intro b
    cases hanim : s.view.anim with
    | none => cases b <;> simp [openView, clear_anim, hanim, hs]
    | some a => cases b <;> simp [openView, clear_anim, hanim, hs]
  have hopenSt : (openView true s).1.view.anim
      = some ⟨(clear_anim s).1.next_anim_id, 1, AnimDone.dispatchOpen⟩ ∧
      (openView true s).1.view.is_open = true := by
    cases hanim : s.view.anim with
    | none => simp [openView, clear_anim, hanim, hs]
    | some a => simp [openView, clear_anim, hanim, hs]
  refine ⟨⟨?_, ?_, ?_⟩, ⟨?_, ?_⟩, ?_, ?_, ?_⟩
  · rw [hopen true]
    cases hanim : s.view.anim <;> simp [hanim, precedes]
  · rw [hopen true]
    cases hanim : s.view.anim <;> simp [hanim]
  · rw [complete_anim, hopenSt.1]
  · rw [hopen false]
    cases hanim : s.view.anim <;> simp [hanim, precedes]
  · rw [hopen false]
    cases hanim : s.view.anim <;> simp [hanim]
  · constructor <;>
      (cases hanim : t.view.anim <;> cases veto <;> cases force <;>
        simp [dismiss, clear_anim, hanim, ht, precedes])
  · have hdisSt : (dismiss veto true true t).1.view.anim
        = some ⟨(clear_anim t).1.next_anim_id, 0, AnimDone.realRemove⟩ ∧
        (dismiss veto true true t).1.view.is_open = true := by
      cases hanim : t.view.anim <;> cases veto <;>
        simp [dismiss, clear_anim, hanim, ht]
    refine ⟨?_, ?_, ?_, ?_⟩
    · cases hanim : t.view.anim <;> cases veto <;>
        simp [dismiss, clear_anim, hanim, ht, precedes]
    · cases hanim : t.view.anim <;> cases veto <;>
        simp [dismiss, clear_anim, hanim, ht]
    · rw [complete_anim, hdisSt.1]
      have h2 := hdisSt.2
      simp [real_remove_widget, h2]
    · cases hanim : t.view.anim <;> cases veto <;>
        simp [dismiss, clear_anim, hanim, ht, precedes, real_remove_widget]
  · constructor <;>
      (cases hanim : t.view.anim <;> cases force <;>
        simp [dismiss, clear_anim, hanim, ht, precedes, real_remove_widget])

/-- Witness for C5 with the closed state instantiated at `initSys` and
the open state at `openSt`. -/
theorem C5_event_ordering_witness :
    (precedes Act.preOpen Act.addWidget (openView true initSys).2 = true ∧
     Act.openEvt ∉ (openView true initSys).2 ∧
     (complete_anim (openView true initSys).1).2 = [Act.setAlpha, Act.openEvt]) ∧
    (precedes Act.preOpen Act.addWidget (openView false initSys).2 = true ∧
     (openView false initSys).2
       = (if initSys.view.anim.isSome then [Act.animStop] else [])
         ++ [Act.preOpen, Act.addWidget, Act.bindResize, Act.bindKeyboard,
             Act.setCenter, Act.bindCenter, Act.bindSize,
             Act.setAlpha, Act.openEvt]) ∧
    (precedes Act.preDismiss Act.dismissEvt (dismiss true false true openSt).2 = true ∧
     precedes Act.preDismiss Act.dismissEvt (dismiss true false false openSt).2 = true) ∧
    (precedes Act.dismissEvt Act.animStart (dismiss true true true openSt).2 = true ∧
     Act.removeWidget ∉ (dismiss true true true openSt).2 ∧
     (complete_anim (dismiss true true true openSt).1).2
       = [Act.setAlpha, Act.removeWidget, Act.unbindResize, Act.unbindKeyboard] ∧
     precedes Act.dismissEvt Act.removeWidget (dismiss true true false openSt).2 = true) ∧
    (precedes Act.dismissEvt Act.animStart (dismiss false false true openSt).2 = true ∧
     precedes Act.dismissEvt Act.removeWidget (dismiss false false false openSt).2 = true) :=
  C5_event_ordering initSys openSt true false (by decide) (by decide)

/-- C6: after a full `open(animation=False)` / `dismiss(animation=False)`
cycle with no veto (any `force`), starting from a clean closed state,
`_is_open` is false, the controller is absent from the window's widget
collection, both the resize and keyboard subscriptions are gone, and the
`_window` reference is cleared. -/
theorem C6_full_cycle (s : Sys) (force : Bool)
    (hclosed : s.view.is_open = false)
    (hmem : ctrlId ∉ s.win.children)
    (hr : s.win.resize_binds = 0) (hk : s.win.keyboard_binds = 0) :
    (dismiss false force false (openView false s).1).1.view.is_open = false ∧
    ctrlId ∉ (dismiss false force false (openView false s).1).1.win.children ∧
    (dismiss false force false (openView false s).1).1.win.resize_binds = 0 ∧
    (dismiss false force false (openView false s).1).1.win.keyboard_binds = 0 ∧
    (dismiss false force false (openView false s).1).1.view.window = false := by
  cases hanim : s.view.anim with
  | none =>
    cases force <;>
      simp [openView, dismiss, clear_anim, real_remove_widget,
        hanim, hclosed, hr, hk, hmem]
  | some a =>
    cases force <;>
      simp [openView, dismiss, clear_anim, real_remove_widget,
        hanim, hclosed, hr, hk, hmem]

/-- Witness for C6 from the initial state. -/
theorem C6_full_cycle_witness :
    (dismiss false false false (openView false initSys).1).1.view.is_open = false ∧
    ctrlId ∉ (dismiss false false false (openView false initSys).1).1.win.children ∧
    (dismiss false false false (openView false initSys).1).1.win.resize_binds = 0 ∧
    (dismiss false false false (openView false initSys).1).1.win.keyboard_binds = 0 ∧
    (dismiss false false false (openView false initSys).1).1.view.window = false :=
  C6_full_cycle initSys false (by decide) (by decide) (by decide) (by decide)

/-- C7: for every pointer gesture, the press handler records
`_touch_started_inside` as the point containment of the press position
and consumes the event; the move handler consumes; the release handler
triggers `dismiss()` (default arguments) instead of forwarding exactly
when `auto_dismiss` is true and `_touch_started_inside` is explicitly
`some false` — so a gesture that pressed inside (`some true`) or with no
recorded press (`none`) forwards instead and never dismisses — then
resets `_touch_started_inside` to `none` and consumes. -/
theorem C7_touch_gesture (s : Sys) (c veto : Bool) :
    (on_touch_down c s).1.view.touch_started_inside = some c ∧
    (on_touch_down c s).2.2 = true ∧
    (on_touch_move s).2.2 = true ∧
    (on_touch_up veto s).2.2 = true ∧
    (on_touch_up veto s).1.view.touch_started_inside = none ∧
    on_touch_up veto s
      = (if s.view.auto_dismiss = true ∧ s.view.touch_started_inside = some false then
          ({ (dismiss veto false true s).1 with view :=
              { (dismiss veto false true s).1.view with touch_started_inside := none } },
           (dismiss veto false true s).2, true)
         else
          ({ s with view := { s.view with touch_started_inside := none } },
           [Act.forwardUp], true)) := by
  cases hauto : s.view.auto_dismiss with
  | false =>
    cases htsi : s.view.touch_started_inside with
    | none =>
      cases c <;> simp [on_touch_down, on_touch_move, on_touch_up, truthy, hauto, htsi]
    | some b =>
      cases b <;> cases c <;>
        simp [on_touch_down, on_touch_move, on_touch_up, truthy, hauto, htsi]
  | true =>
    cases htsi : s.view.touch_started_inside with
    | none =>
      cases c <;> simp [on_touch_down, on_touch_move, on_touch_up, truthy, hauto, htsi]
    | some b =>
      cases b <;> cases c <;>
        simp [on_touch_down, on_touch_move, on_touch_up, truthy, hauto, htsi]

/-- C8: the keyboard handler dismisses (default `dismiss()` arguments)
and reports the key event consumed exactly when the key code is 27
(escape) and `auto_dismiss` is true; for any other key, or with
`auto_dismiss` false, it leaves the state untouched and falls through
(`none`, Python's implicit `None` — not consumed). -/
theorem C8_escape_key (s : Sys) (veto : Bool) (key : Nat) :
    handle_keyboard veto key s
      = (if key = 27 ∧ s.view.auto_dismiss = true then
          ((dismiss veto false true s).1, (dismiss veto false true s).2, some true)
         else (s, [], none)) := by
  cases hauto : s.view.auto_dismiss <;>
    by_cases hkey : key = 27 <;> simp [handle_keyboard, hauto, hkey]

/-- C9: immediately after a successful `open()` the controller's center
equals the window's (unchanged) center; a resize notification received
while the controller is open and subscribed recenters it on the new
window center; and `_align_center` is a no-op whenever `_is_open` is
false. -/
theorem C9_centering (s t u : Sys) (b : Bool) (c : Int × Int)
    (hs : s.view.is_open = false)
    (ht : t.view.is_open = true) (htb : 0 < t.win.resize_binds)
    (hu : u.view.is_open = false) :
    (openView b s).1.view.center = s.win.center ∧
    (openView b s).1.win.center = s.win.center ∧
    (on_resize c t).view.center = c ∧
    (on_resize c t).win.center = c ∧
    align_center u = u := by
  refine ⟨?_, ?_, ?_, ?_, ?_⟩
  · cases hanim : s.view.anim <;> cases b <;>
      simp [openView, clear_anim, hanim, hs]
  · cases hanim : s.view.anim <;> cases b <;>
      simp [openView, clear_anim, hanim, hs]
  · simp [on_resize, align_center, ht, htb]
  · simp [on_resize, align_center, ht, htb]
  · simp [align_center, hu]

/-- Witness for C9 with the closed states at `initSys`, the open state
at `openSt`, and a concrete new center. -/
theorem C9_centering_witness :
    (openView false initSys).1.view.center = initSys.win.center ∧
    (openView false initSys).1.win.center = initSys.win.center ∧
    (on_resize (5, 7) openSt).view.center = (5, 7) ∧
    (on_resize (5, 7) openSt).win.center = (5, 7) ∧
    align_center initSys = initSys :=
  C9_centering initSys openSt initSys false (5, 7)
    (by decide) (by decide) (by decide) (by decide)

end ModalView
